import Mathlib

/-!
Shallow embedding of the Gerber X2 attribute-generation logic of
`pcbnew/pcbplot.cpp` (KiCad): layer classification, project-GUID derivation,
X2 header assembly, plot-filename construction and the plot-session
controller, together with proofs of the specification's claims about them.

Strings are modelled by Lean `String` (a wxString is a sequence of Unicode
code points); machine integers by `Int`/`Nat` with explicit masks where the
C code masks.
-/

namespace KiCadPcbPlot

/-! ## Layer identifiers

Modelled from the spec: the layer-identifier header
(`include/layers_id_colors_and_visibility.h`) is not part of the staged
sources; the spec describes "an integer enumerant identifying one
physical/logical PCB layer (copper layers numbered, plus named non-copper
layers)".  The copper layers occupy the contiguous range `F_Cu = 0` to
`B_Cu = 31` (a layer's copper ordinal is its enumerant value), and the named
non-copper layers follow. -/

def F_Cu : Int := 0

def B_Cu : Int := 31

def B_Adhes : Int := 32

def F_Adhes : Int := 33

def B_Paste : Int := 34

def F_Paste : Int := 35

def B_SilkS : Int := 36

def F_SilkS : Int := 37

def B_Mask : Int := 38

def F_Mask : Int := 39

def Dwgs_User : Int := 40

def Cmts_User : Int := 41

def Eco1_User : Int := 42

def Eco2_User : Int := 43

def Edge_Cuts : Int := 44

def B_Fab : Int := 48

def F_Fab : Int := 49

/-- Modelled from the spec: `IsCopperLayer` (same missing header) holds for
the numbered copper layers, the range `F_Cu .. B_Cu`. -/
def IsCopperLayer (aLayer : Int) : Bool :=
  F_Cu ≤ aLayer && aLayer ≤ B_Cu

/-! ## C-style formatting helpers -/

/-- C `printf` hex conversion `%w.wx` for a non-negative value: lowercase
hex digits of `n`, left-padded with `0` to a minimum of `w` digits. -/
def cfmtHex (w : Nat) (n : Nat) : String :=
  ⟨List.replicate (w - (Nat.toDigits 16 n).length) '0' ++ Nat.toDigits 16 n⟩

/-- C `printf` conversion `%d` of a (signed) int. -/
def cfmtDec (i : Int) : String :=
  Int.repr i

/-! ## `GetGerberProtelExtension` (pcbplot.cpp:47) -/

def getGerberProtelExtension (aLayer : Int) : String :=
  if IsCopperLayer aLayer then
    if aLayer = F_Cu then "gtl"
    else if aLayer = B_Cu then "gbl"
    else "g" ++ cfmtDec (aLayer + 1)
  else
    if aLayer = B_Adhes then "gba"
    else if aLayer = F_Adhes then "gta"
    else if aLayer = B_Paste then "gbp"
    else if aLayer = F_Paste then "gtp"
    else if aLayer = B_SilkS then "gbo"
    else if aLayer = F_SilkS then "gto"
    else if aLayer = B_Mask then "gbs"
    else if aLayer = F_Mask then "gts"
    else if aLayer = Edge_Cuts then "gm1"
    else "gbr"

/-! ## Board identity (the accessors `AddGerberX2Header` and
`GetGerberFileFunctionAttribute` read from `BOARD`) -/

structure BOARD where
  /-- `wxFileName( GetFileName() ).GetFullName()`: board filename with
  extension, without directory. -/
  fileFullName : String
  /-- `wxFileName( GetFileName() ).GetName()`: board filename without
  extension. -/
  fileBaseName : String
  /-- `GetTitleBlock().GetRevision()`. -/
  revision : String
  /-- `GetAuxOrigin().x`. -/
  auxOriginX : Int
  /-- `GetAuxOrigin().y`. -/
  auxOriginY : Int
  /-- `GetPlotOptions().GetUseAuxOrigin()`. -/
  useAuxOrigin : Bool
  /-- `GetCopperLayerCount()`. -/
  copperLayerCount : Int
deriving DecidableEq

/-! ## `GetGerberFileFunctionAttribute` (pcbplot.cpp:88) -/

def getGerberFileFunctionAttribute (aBoard : BOARD) (aLayer : Int) : String :=
  let attrib :=
    if aLayer = F_Adhes then "Glue,Top"
    else if aLayer = B_Adhes then "Glue,Bot"
    else if aLayer = F_SilkS then "Legend,Top"
    else if aLayer = B_SilkS then "Legend,Bot"
    else if aLayer = F_Mask then "Soldermask,Top"
    else if aLayer = B_Mask then "Soldermask,Bot"
    else if aLayer = F_Paste then "Paste,Top"
    else if aLayer = B_Paste then "Paste,Bot"
    else if aLayer = Edge_Cuts then "Profile,NP"
    else if aLayer = Dwgs_User then "Drawing"
    else if aLayer = Cmts_User then "Other,Comment"
    else if aLayer = Eco1_User then "Other,ECO1"
    else if aLayer = Eco2_User then "Other,ECO2"
    else if aLayer = B_Fab then "Other,Fab,Bot"
    else if aLayer = F_Fab then "Other,Fab,Top"
    else if aLayer = B_Cu then "Copper,L" ++ cfmtDec aBoard.copperLayerCount ++ ",Bot"
    else if aLayer = F_Cu then "Copper,L1,Top"
    else if IsCopperLayer aLayer then "Copper,L" ++ cfmtDec (aLayer + 1) ++ ",Inr"
    else "Other,User"
  "%TF.FileFunction," ++ attrib ++ "*%"

/-! ## `GetGerberFilePolarityAttribute` (pcbplot.cpp:208) -/

def getGerberFilePolarityAttribute (aLayer : Int) : String :=
  let polarity : Int :=
    if aLayer = F_Adhes ∨ aLayer = B_Adhes ∨ aLayer = F_SilkS ∨ aLayer = B_SilkS
        ∨ aLayer = F_Paste ∨ aLayer = B_Paste then 1
    else if aLayer = F_Mask ∨ aLayer = B_Mask then -1
    else if IsCopperLayer aLayer then 1
    else 0
  let filePolarity : String := ""
  let filePolarity := if polarity = 1 then "%TF.FilePolarity,Positive*%" else filePolarity
  let filePolarity := if polarity = -1 then "%TF.FilePolarity,Negative*%" else filePolarity
  filePolarity

/-! ## `makeStringCompatX1` (pcbplot.cpp:267) -/

def makeStringCompatX1 (aText : String) (aUseX1CompatibilityMode : Bool) : String :=
  if aUseX1CompatibilityMode then
    "G04 #@! " ++ (⟨aText.data.filter (· ≠ '%')⟩ : String)
  else
    aText

/-! ## `makeProjectGUIDfromString` (pcbplot.cpp:285) -/

/-- The filler appended to names shorter than the 16-byte working buffer:
`bname.Append( 'X', cnt )`. -/
def guidFiller : Nat := 88

/-- The padded working buffer, as character codes: the name, right-padded
with the filler to at least 16 entries. -/
def padCodes (name : List Nat) : List Nat :=
  name ++ List.replicate (16 - name.length) guidFiller

/-- `int( bname[i] )`: the `i`-th code of the padded buffer. -/
def bnameByte (name : List Nat) (i : Nat) : Nat :=
  (padCodes name).getD i 0

/-- Core of `makeProjectGUIDfromString`, on the name's character codes.
Each `% 256` is the C `& 0xFF`; the third group is
`(bname[6] << 4 & 0xFF0) + (bname[7] >> 4 & 0x0F)` and the fourth
`((bname[7] & 0x0F) << 8) + (bname[8] & 0xFF)` — note that index 7 is read
twice and index 15 is never read. -/
def guidFromCodes (name : List Nat) : String :=
  cfmtHex 2 (bnameByte name 0 % 256) ++ cfmtHex 2 (bnameByte name 1 % 256)
    ++ cfmtHex 2 (bnameByte name 2 % 256) ++ cfmtHex 2 (bnameByte name 3 % 256)
    ++ "-"
    ++ cfmtHex 2 (bnameByte name 4 % 256) ++ cfmtHex 2 (bnameByte name 5 % 256)
    ++ "-1"
    ++ cfmtHex 3 ((bnameByte name 6 % 256) * 16 + (bnameByte name 7 / 16) % 16)
    ++ "-9"
    ++ cfmtHex 3 ((bnameByte name 7 % 16) * 256 + bnameByte name 8 % 256)
    ++ "-"
    ++ cfmtHex 2 (bnameByte name 9 % 256) ++ cfmtHex 2 (bnameByte name 10 % 256)
    ++ cfmtHex 2 (bnameByte name 11 % 256) ++ cfmtHex 2 (bnameByte name 12 % 256)
    ++ cfmtHex 2 (bnameByte name 13 % 256) ++ cfmtHex 2 (bnameByte name 14 % 256)

def makeProjectGUIDfromString (aText : String) : String :=
  guidFromCodes (aText.data.map Char.toNat)

/-! ## `AddGerberX2Header` (pcbplot.cpp:355)

The wxWidgets date accessors are external inputs: `aDateISO` models
`date.FormatISOCombined()` and `aTimeZoneOffset` models
`date.Format( "%z" )`; `aVersion` models `GetBuildVersion()`.  The plotter
is modelled by returning the list of lines passed to `AddLineToHeader`, in
order.  `text` is a single mutable buffer in the C++ code; it is threaded
explicitly below.  Note the comma operator at pcbplot.cpp:376: the
`text.Printf` that formats the CreationDate line belongs to the body of
`if( msg.Len() > 3 )`, so when the timezone string has three characters or
fewer the buffer keeps the previous (already transformed) line. -/

/-- `wxString::ToAscii()`: code points outside 7-bit ASCII become `_`. -/
def wxToAscii (s : String) : String :=
  ⟨s.data.map fun c => if c.toNat < 128 then c else '_'⟩

/-- `wxString::Replace( ",", "_" )`. -/
def wxReplaceCommaUnderscore (s : String) : String :=
  ⟨s.data.map fun c => if c = ',' then '_' else c⟩

/-- `msg.insert( 3, ":", 1 )`: one colon inserted at position 3. -/
def insertColonAt3 (s : String) : String :=
  ⟨s.data.take 3 ++ ':' :: s.data.drop 3⟩

/-- C `printf` `%x` of a C `int`: the value reduced modulo 2^32 (the
conversion reads the argument as a 32-bit unsigned), minimum width 1. -/
def cfmtHexInt (i : Int) : String :=
  ⟨Nat.toDigits 16 (i % (2 ^ 32 : Int)).toNat⟩

/-- The `<rev>` field: title-block revision with commas replaced, the
placeholder `rev?` when empty (pcbplot.cpp:401). -/
def revisionField (aBoard : BOARD) : String :=
  let rev := wxReplaceCommaUnderscore aBoard.revision
  if rev = "" then "rev?" else rev

/-- The `%TF.ProjectId` line before the compatibility transform
(pcbplot.cpp:389). -/
def projectIdLine (aBoard : BOARD) : String :=
  let guid := makeProjectGUIDfromString aBoard.fileFullName
  let msg := wxReplaceCommaUnderscore aBoard.fileBaseName
  "%TF.ProjectId," ++ wxToAscii msg ++ "," ++ guid ++ ","
    ++ wxToAscii (revisionField aBoard) ++ "*%"

/-- The `%TF.SameCoordinates` key (pcbplot.cpp:425): the fixed literal
`Original` unless an auxiliary origin is in use and non-zero in both
coordinates. -/
def sameCoordinatesKey (aBoard : BOARD) : String :=
  let registration_id := "Original"
  if aBoard.useAuxOrigin ∧ aBoard.auxOriginX ≠ 0 ∧ aBoard.auxOriginY ≠ 0 then
    "PX" ++ cfmtHexInt aBoard.auxOriginX ++ "PY" ++ cfmtHexInt aBoard.auxOriginY
  else
    registration_id

def addGerberX2Header (aVersion aDateISO aTimeZoneOffset : String) (aBoard : BOARD)
    (aUseX1CompatibilityMode : Bool) : List String :=
  let text := "%TF.GenerationSoftware,KiCad,Pcbnew," ++ aVersion ++ "*%"
  let text := makeStringCompatX1 text aUseX1CompatibilityMode
  let line1 := text
  let msg := aTimeZoneOffset
  let text :=
    if msg.length > 3 then
      "%TF.CreationDate," ++ aDateISO ++ insertColonAt3 msg ++ "*%"
    else
      text
  let text := makeStringCompatX1 text aUseX1CompatibilityMode
  let line2 := text
  let text := projectIdLine aBoard
  let line3 := makeStringCompatX1 text aUseX1CompatibilityMode
  let text := "%TF.SameCoordinates," ++ sameCoordinatesKey aBoard ++ "*%"
  let line4 := makeStringCompatX1 text aUseX1CompatibilityMode
  [line1, line2, line3, line4]

/-! ## `BuildPlotFileName` (pcbplot.cpp:455) -/

/-- The slice of `wxFileName` the plot code uses: directory, base name,
extension. -/
structure WxFileName where
  path : String
  name : String
  ext : String
deriving DecidableEq

/-- `wxFileName::GetFullPath()` for this slice. -/
def getFullPath (fn : WxFileName) : String :=
  (if fn.path = "" then "" else fn.path ++ "/") ++ fn.name
    ++ (if fn.ext = "" then "" else "." ++ fn.ext)

/-- `wxIsspace` on ASCII, as C `isspace`. -/
def isWxSpace (c : Char) : Bool :=
  c = ' ' || c = '\t' || c = '\n' || c = '\x0b' || c = '\x0c' || c = '\r'

/-- `wxString::Trim( false )`: strip leading whitespace. -/
def wxTrimLeft (s : String) : String :=
  ⟨s.data.dropWhile isWxSpace⟩

/-- `wxString::Trim( true )`: strip trailing whitespace. -/
def wxTrimRight (s : String) : String :=
  ⟨(s.data.reverse.dropWhile isWxSpace).reverse⟩

/-- `wxFileName::GetForbiddenChars( wxPATH_DOS )`: the characters wxWidgets
reports as not allowed in a DOS/Windows path, `*?\/:"<>|` (this list is the
external wxWidgets collaborator's fixed answer). -/
def forbiddenFileChars : List Char :=
  ['*', '?', '\\', '/', ':', '"', '<', '>', '|']

/-- `suffix.Replace( badchars[ii], "_" )`: every occurrence of one character
becomes an underscore. -/
def replChar (bad : Char) (l : List Char) : List Char :=
  l.map fun c => if c = bad then '_' else c

def buildPlotFileName (aFilename : WxFileName) (aOutputDir aSuffix aExtension : String) :
    WxFileName :=
  let fn := { aFilename with path := aOutputDir, ext := aExtension }
  let suffix := wxTrimRight aSuffix
  let suffix := wxTrimLeft suffix
  let badchars := forbiddenFileChars ++ ['%']
  let suffix : String := ⟨badchars.foldl (fun l bad => replChar bad l) suffix.data⟩
  if suffix = "" then fn
  else { fn with name := fn.name ++ "-" ++ suffix }

/-! ## `PLOT_CONTROLLER` (pcbplot.cpp:487)

`EnsureFileDirectoryExists` and `StartPlotBoard` live outside the staged
sources; the former is modelled by a boolean outcome `aEnsureDirOk` (with
`aOutputDirPath` the directory it resolves) and the latter by an optional
backend `aStartPlotResult` (`none` models a construction failure, and `P` is
the backend type).  `aBoardFileName` models `wxFileName( m_board->GetFileName() )`. -/

structure PLOT_CONTROLLER (P : Type) where
  m_plotter : Option P
  m_plotFile : WxFileName
  m_plotLayer : Int

/-- `PLOT_CONTROLLER::ClosePlot` on the state: the backend, if any, is
finalized and released. -/
def closePlot {P : Type} (st : PLOT_CONTROLLER P) : PLOT_CONTROLLER P :=
  { st with m_plotter := none }

/-- `PLOT_CONTROLLER::OpenPlotfile`: final state and returned flag. -/
def openPlotfile {P : Type} (st : PLOT_CONTROLLER P) (aSuffix : String)
    (aFormatIsGerber aUseProtelExt : Bool) (aDefaultExt : String)
    (aEnsureDirOk : Bool) (aOutputDirPath : String) (aBoardFileName : WxFileName)
    (aStartPlotResult : Option P) : PLOT_CONTROLLER P × Bool :=
  let st := closePlot st
  if aEnsureDirOk then
    let plotFile := { aBoardFileName with path := aOutputDirPath }
    let fileExt :=
      if aFormatIsGerber && aUseProtelExt then getGerberProtelExtension st.m_plotLayer
      else aDefaultExt
    let plotFile := buildPlotFileName plotFile aOutputDirPath aSuffix fileExt
    let st := { st with m_plotFile := plotFile, m_plotter := aStartPlotResult }
    (st, st.m_plotter.isSome)
  else
    (st, st.m_plotter.isSome)

/-! ## Spec-side definitions

These follow the wording of the specification's claims, to be compared with
the definitions above, which follow the source. -/

/-- The claim's wording of the `.FileFunction` value: front copper, back
copper and inner copper first, then the profile and the fixed per-layer
labels, with `Other,User` for every unrecognized layer. -/
def fileFunctionSpecValue (aBoard : BOARD) (aLayer : Int) : String :=
  if aLayer = F_Cu then "Copper,L1,Top"
  else if aLayer = B_Cu then "Copper,L" ++ cfmtDec aBoard.copperLayerCount ++ ",Bot"
  else if IsCopperLayer aLayer then "Copper,L" ++ cfmtDec (aLayer + 1) ++ ",Inr"
  else if aLayer = Edge_Cuts then "Profile,NP"
  else if aLayer = F_Adhes then "Glue,Top"
  else if aLayer = B_Adhes then "Glue,Bot"
  else if aLayer = F_SilkS then "Legend,Top"
  else if aLayer = B_SilkS then "Legend,Bot"
  else if aLayer = F_Mask then "Soldermask,Top"
  else if aLayer = B_Mask then "Soldermask,Bot"
  else if aLayer = F_Paste then "Paste,Top"
  else if aLayer = B_Paste then "Paste,Bot"
  else if aLayer = Dwgs_User then "Drawing"
  else if aLayer = Cmts_User then "Other,Comment"
  else if aLayer = Eco1_User then "Other,ECO1"
  else if aLayer = Eco2_User then "Other,ECO2"
  else if aLayer = B_Fab then "Other,Fab,Bot"
  else if aLayer = F_Fab then "Other,Fab,Top"
  else "Other,User"

/-- The layers for which the claim says polarity is meaningful: adhesive,
silkscreen, paste, mask, or copper. -/
def polarityRelevant (aLayer : Int) : Prop :=
  aLayer = F_Adhes ∨ aLayer = B_Adhes ∨ aLayer = F_SilkS ∨ aLayer = B_SilkS
    ∨ aLayer = F_Paste ∨ aLayer = B_Paste ∨ aLayer = F_Mask ∨ aLayer = B_Mask
    ∨ IsCopperLayer aLayer = true

/-- The claim's wording of the `.FilePolarity` attribute: positive for
adhesive/silkscreen/paste and all copper layers, negative for mask layers,
empty otherwise. -/
def filePolaritySpecValue (aLayer : Int) : String :=
  if aLayer = F_Adhes ∨ aLayer = B_Adhes ∨ aLayer = F_SilkS ∨ aLayer = B_SilkS
      ∨ aLayer = F_Paste ∨ aLayer = B_Paste ∨ IsCopperLayer aLayer = true then
    "%TF.FilePolarity,Positive*%"
  else if aLayer = F_Mask ∨ aLayer = B_Mask then
    "%TF.FilePolarity,Negative*%"
  else ""

/-- The claim's wording of suffix sanitization: trim surrounding whitespace,
then replace each character forbidden on the strictest platform, plus `%`,
with an underscore. -/
def sanitizeSuffixSpec (s : String) : String :=
  let t := wxTrimLeft (wxTrimRight s)
  ⟨t.data.map fun c => if c ∈ forbiddenFileChars ++ ['%'] then '_' else c⟩

/-! ## A checker for the RFC4122-shaped GUID pattern
`^[0-9a-f]\x7b8\x7d-[0-9a-f]\x7b4\x7d-1[0-9a-f]\x7b3\x7d-9[0-9a-f]\x7b3\x7d-[0-9a-f]\x7b12\x7d$` -/

/-- A lowercase hexadecimal digit, the regex class `[0-9a-f]`. -/
def isHexLowerChar (c : Char) : Bool :=
  ('0' ≤ c && c ≤ '9') || ('a' ≤ c && c ≤ 'f')

/-- Consume exactly `n` lowercase hex digits, returning the rest. -/
def takeHex : Nat → List Char → Option (List Char)
  | 0, l => some l
  | _ + 1, [] => none
  | n + 1, c :: l => if isHexLowerChar c then takeHex n l else none

/-- Consume exactly the character `c`, returning the rest. -/
def expectChar (c : Char) : List Char → Option (List Char)
  | [] => none
  | d :: l => if d = c then some l else none

/-- The anchored RFC4122-shaped pattern of the spec: eight hex digits,
dash, four hex digits, dash, the version digit `1` and three hex digits,
dash, the variant digit `9` and three hex digits, dash, twelve hex digits,
end of string. -/
def guidShape (s : String) : Prop :=
  ((((((((((takeHex 8 s.data).bind (expectChar '-')).bind (takeHex 4)).bind
    (expectChar '-')).bind (expectChar '1')).bind (takeHex 3)).bind
    (expectChar '-')).bind (expectChar '9')).bind (takeHex 3)).bind
    (expectChar '-')).bind (takeHex 12) = some []

/-- A concrete board for the closed-input theorems. -/
def c2Board : BOARD :=
  ⟨"demo.kicad_pcb", "demo", "", 0, 0, false, 2⟩

/-! ## Helper lemmas -/

theorem string_data_append (a b : String) : (a ++ b).data = a.data ++ b.data :=
  rfl

theorem digitChar_isHexLower (n : Nat) (h : n < 16) :
    isHexLowerChar (Nat.digitChar n) = true := by
  interval_cases n <;> decide

theorem toDigitsCore_hex (fuel : Nat) :
    ∀ (n : Nat) (acc : List Char), (∀ c ∈ acc, isHexLowerChar c = true) →
      ∀ c ∈ Nat.toDigitsCore 16 fuel n acc, isHexLowerChar c = true := by
  induction fuel with
  | zero =>
    intro n acc hacc c hc
    simp only [Nat.toDigitsCore] at hc
    exact hacc c hc
  | succ fuel ih =>
    intro n acc hacc c hc
    have hstep : ∀ d ∈ Nat.digitChar (n % 16) :: acc, isHexLowerChar d = true := by
      intro d hd
      rcases List.mem_cons.mp hd with h | h
      · subst h
        exact digitChar_isHexLower _ (Nat.mod_lt _ (by norm_num))
      · exact hacc d h
    simp only [Nat.toDigitsCore] at hc
    by_cases hz : n / 16 = 0
    · rw [if_pos hz] at hc
      exact hstep c hc
    · rw [if_neg hz] at hc
      exact ih (n / 16) _ hstep c hc

theorem toDigits_hex (n : Nat) : ∀ c ∈ Nat.toDigits 16 n, isHexLowerChar c = true :=
  toDigitsCore_hex (n + 1) n [] (by intro c hc; cases hc)

theorem toDigits_length_le (n e : Nat) (he : 0 < e) (h : n < 16 ^ e) :
    (Nat.toDigits 16 n).length ≤ e :=
  Nat.toDigitsCore_length 16 (by norm_num) (n + 1) n e h he

theorem cfmtHex_data_length (w n : Nat) (hw : 0 < w) (h : n < 16 ^ w) :
    (cfmtHex w n).data.length = w := by
  have hle := toDigits_length_le n w hw h
  show (List.replicate (w - (Nat.toDigits 16 n).length) '0' ++ Nat.toDigits 16 n).length = w
  rw [List.length_append, List.length_replicate]
  omega

theorem cfmtHex_data_hex (w n : Nat) :
    ∀ c ∈ (cfmtHex w n).data, isHexLowerChar c = true := by
  intro c hc
  have hc2 : c ∈ List.replicate (w - (Nat.toDigits 16 n).length) '0' ++ Nat.toDigits 16 n :=
    hc
  rcases List.mem_append.mp hc2 with h | h
  · rw [List.eq_of_mem_replicate h]
    decide
  · exact toDigits_hex n c h

theorem takeHex_prepend (l : List Char) (h : ∀ x ∈ l, isHexLowerChar x = true)
    (n : Nat) (r : List Char) : takeHex (l.length + n) (l ++ r) = takeHex n r := by
  induction l with
  | nil => rw [List.nil_append, List.length_nil, Nat.zero_add]
  | cons c l ih =>
    have hc : isHexLowerChar c = true := h c (List.mem_cons_self c l)
    have hrec := ih fun x hx => h x (List.mem_cons_of_mem c hx)
    show takeHex (l.length + 1 + n) (c :: (l ++ r)) = takeHex n r
    rw [Nat.add_right_comm]
    show (if isHexLowerChar c then takeHex (l.length + n) (l ++ r) else none) = takeHex n r
    simp [hc, hrec]

theorem takeHex_cfmt2 (m : Nat) (h : m < 256) (n : Nat) (r : List Char) :
    takeHex (2 + n) ((cfmtHex 2 m).data ++ r) = takeHex n r := by
  have hlen : (cfmtHex 2 m).data.length = 2 := cfmtHex_data_length 2 m (by norm_num) (by norm_num [h])
  rw [show 2 + n = (cfmtHex 2 m).data.length + n by rw [hlen]]
  exact takeHex_prepend _ (cfmtHex_data_hex 2 m) n r

theorem takeHex_cfmt3 (m : Nat) (h : m < 4096) (n : Nat) (r : List Char) :
    takeHex (3 + n) ((cfmtHex 3 m).data ++ r) = takeHex n r := by
  have hlen : (cfmtHex 3 m).data.length = 3 := cfmtHex_data_length 3 m (by norm_num) (by norm_num [h])
  rw [show 3 + n = (cfmtHex 3 m).data.length + n by rw [hlen]]
  exact takeHex_prepend _ (cfmtHex_data_hex 3 m) n r

theorem expectChar_cons (c : Char) (l : List Char) : expectChar c (c :: l) = some l := by
  simp [expectChar]

theorem takeHex_zero (l : List Char) : takeHex 0 l = some l :=
  rfl

theorem takeHex_cfmt2_step (k n m : Nat) (hk : k = 2 + n) (h : m < 256) (r : List Char) :
    takeHex k ((cfmtHex 2 m).data ++ r) = takeHex n r := by
  subst hk
  exact takeHex_cfmt2 m h n r

theorem takeHex_cfmt3_step (k n m : Nat) (hk : k = 3 + n) (h : m < 4096) (r : List Char) :
    takeHex k ((cfmtHex 3 m).data ++ r) = takeHex n r := by
  subst hk
  exact takeHex_cfmt3 m h n r

theorem takeHex_cfmt2_final (m : Nat) (h : m < 256) :
    takeHex 2 (cfmtHex 2 m).data = some [] := by
  have h2 := takeHex_cfmt2 m h 0 []
  simp only [List.append_nil, Nat.add_zero, takeHex_zero] at h2
  exact h2

/-- Every GUID the derivation produces matches the RFC4122-shaped pattern. -/
theorem guidFromCodes_shape (name : List Nat) : guidShape (guidFromCodes name) := by
  have hmod : ∀ i, bnameByte name i % 256 < 256 := fun i => Nat.mod_lt _ (by norm_num)
  have hg3 : (bnameByte name 6 % 256) * 16 + (bnameByte name 7 / 16) % 16 < 4096 := by
    have h1 := hmod 6
    have h2 : (bnameByte name 7 / 16) % 16 < 16 := Nat.mod_lt _ (by norm_num)
    omega
  have hg4 : (bnameByte name 7 % 16) * 256 + bnameByte name 8 % 256 < 4096 := by
    have h1 : bnameByte name 7 % 16 < 16 := Nat.mod_lt _ (by norm_num)
    have h2 := hmod 8
    omega
  have h1 : ("-" : String).data = ['-'] := rfl
  have h2 : ("-1" : String).data = ['-', '1'] := rfl
  have h3 : ("-9" : String).data = ['-', '9'] := rfl
  unfold guidShape
  simp only [guidFromCodes, string_data_append, h1, h2, h3, List.cons_append,
    List.nil_append, List.append_assoc]
  rw [takeHex_cfmt2_step 8 6 _ (by norm_num) (hmod 0),
    takeHex_cfmt2_step 6 4 _ (by norm_num) (hmod 1),
    takeHex_cfmt2_step 4 2 _ (by norm_num) (hmod 2),
    takeHex_cfmt2_step 2 0 _ (by norm_num) (hmod 3),
    takeHex_zero, Option.some_bind, expectChar_cons, Option.some_bind,
    takeHex_cfmt2_step 4 2 _ (by norm_num) (hmod 4),
    takeHex_cfmt2_step 2 0 _ (by norm_num) (hmod 5),
    takeHex_zero, Option.some_bind, expectChar_cons, Option.some_bind, expectChar_cons,
    Option.some_bind,
    takeHex_cfmt3_step 3 0 _ (by norm_num) hg3,
    takeHex_zero, Option.some_bind, expectChar_cons, Option.some_bind, expectChar_cons,
    Option.some_bind,
    takeHex_cfmt3_step 3 0 _ (by norm_num) hg4,
    takeHex_zero, Option.some_bind, expectChar_cons, Option.some_bind,
    takeHex_cfmt2_step 12 10 _ (by norm_num) (hmod 9),
    takeHex_cfmt2_step 10 8 _ (by norm_num) (hmod 10),
    takeHex_cfmt2_step 8 6 _ (by norm_num) (hmod 11),
    takeHex_cfmt2_step 6 4 _ (by norm_num) (hmod 12),
    takeHex_cfmt2_step 4 2 _ (by norm_num) (hmod 13),
    takeHex_cfmt2_final _ (hmod 14)]

/-! ## The claims -/

/-- C1: `makeProjectGUIDfromString` is deterministic — the same name yields
a byte-identical result on every call — and its result always matches the
RFC4122-shaped pattern `xxxxxxxx-xxxx-1xxx-9xxx-xxxxxxxxxxxx` with
lowercase hex digits, for names shorter than the 16-byte working buffer
(right-padded with the filler) and longer alike. -/
theorem makeProjectGUID_deterministic_and_shaped (aText : String) :
    makeProjectGUIDfromString aText = makeProjectGUIDfromString aText
      ∧ guidShape (makeProjectGUIDfromString aText) :=
  ⟨rfl, guidFromCodes_shape (aText.data.map Char.toNat)⟩

/-- The GUID reads the padded buffer only at indices 0 through 14. -/
theorem guidFromCodes_first15 (n1 n2 : List Nat)
    (h : (padCodes n1).take 15 = (padCodes n2).take 15) :
    guidFromCodes n1 = guidFromCodes n2 := by
  have hpt : ∀ (l : List Nat) (i : Nat), i < 15 → l.getD i 0 = (l.take 15).getD i 0 := by
    intro l i hi
    rw [List.getD_eq_getD_get?, List.getD_eq_getD_get?, List.get?_eq_getElem?,
      List.get?_eq_getElem?, List.getElem?_take_of_lt hi]
  have hb : ∀ i : Nat, i < 15 → bnameByte n1 i = bnameByte n2 i := by
    intro i hi
    unfold bnameByte
    rw [hpt (padCodes n1) i hi, h, ← hpt (padCodes n2) i hi]
  unfold guidFromCodes
  rw [hb 0 (by norm_num), hb 1 (by norm_num), hb 2 (by norm_num), hb 3 (by norm_num),
    hb 4 (by norm_num), hb 5 (by norm_num), hb 6 (by norm_num), hb 7 (by norm_num),
    hb 8 (by norm_num), hb 9 (by norm_num), hb 10 (by norm_num), hb 11 (by norm_num),
    hb 12 (by norm_num), hb 13 (by norm_num), hb 14 (by norm_num)]

/-- C10: two names whose padded buffers agree on the first 15 entries get
identical GUIDs — the 16th buffer byte and everything past position 14
never influence the result. -/
theorem makeProjectGUID_first15 (s1 s2 : String)
    (h : (padCodes (s1.data.map Char.toNat)).take 15
        = (padCodes (s2.data.map Char.toNat)).take 15) :
    makeProjectGUIDfromString s1 = makeProjectGUIDfromString s2 :=
  guidFromCodes_first15 _ _ h

/-- C10 witness: the empty name pads to sixteen fillers; a 16-character name
agreeing on the first 15 padded entries yields the same GUID. -/
theorem makeProjectGUID_first15_witness :
    (padCodes ((("" : String)).data.map Char.toNat)).take 15
        = (padCodes ((("XXXXXXXXXXXXXXXY" : String)).data.map Char.toNat)).take 15
      ∧ makeProjectGUIDfromString "" = makeProjectGUIDfromString "XXXXXXXXXXXXXXXY" :=
  ⟨by decide, makeProjectGUID_first15 "" "XXXXXXXXXXXXXXXY" (by decide)⟩

/-- C7: the compatibility transform with the flag false is the identity. -/
theorem makeStringCompatX1_false_id (aText : String) :
    makeStringCompatX1 aText false = aText :=
  rfl

/-- C5: on copper layers the legacy Protel extension is `gtl` for the front
layer, `gbl` for the back layer, and `g<N+1>` for every other copper layer,
`N` the layer's copper ordinal. -/
theorem protelExtension_copper (aLayer : Int) (h : IsCopperLayer aLayer = true) :
    getGerberProtelExtension aLayer =
      (if aLayer = F_Cu then "gtl"
        else if aLayer = B_Cu then "gbl"
        else "g" ++ cfmtDec (aLayer + 1)) := by
  unfold getGerberProtelExtension
  rw [if_pos h]

/-- C5 witness: layer 5 (an inner copper layer) gets extension `g6`. -/
theorem protelExtension_copper_witness :
    IsCopperLayer 5 = true ∧ getGerberProtelExtension 5 = "g6" :=
  ⟨by decide, (protelExtension_copper 5 (by decide)).trans (by decide)⟩

/-- C9: `OpenPlotfile` first closes any previous session, returns true
exactly when a backend is open afterwards, and holds a backend exactly when
the directory step succeeded and the factory produced one — so on any
failure the controller is left in the closed state. -/
theorem openPlotfile_contract (P : Type) (st : PLOT_CONTROLLER P) (aSuffix : String)
    (aFormatIsGerber aUseProtelExt : Bool) (aDefaultExt : String) (aEnsureDirOk : Bool)
    (aOutputDirPath : String) (aBoardFileName : WxFileName) (aStartPlotResult : Option P) :
    (openPlotfile st aSuffix aFormatIsGerber aUseProtelExt aDefaultExt aEnsureDirOk
          aOutputDirPath aBoardFileName aStartPlotResult).2
        = (openPlotfile st aSuffix aFormatIsGerber aUseProtelExt aDefaultExt aEnsureDirOk
          aOutputDirPath aBoardFileName aStartPlotResult).1.m_plotter.isSome
      ∧ (openPlotfile st aSuffix aFormatIsGerber aUseProtelExt aDefaultExt aEnsureDirOk
          aOutputDirPath aBoardFileName aStartPlotResult).1.m_plotter
        = (if aEnsureDirOk then aStartPlotResult else none)
      ∧ openPlotfile st aSuffix aFormatIsGerber aUseProtelExt aDefaultExt aEnsureDirOk
          aOutputDirPath aBoardFileName aStartPlotResult
        = openPlotfile (closePlot st) aSuffix aFormatIsGerber aUseProtelExt aDefaultExt
          aEnsureDirOk aOutputDirPath aBoardFileName aStartPlotResult := by
  cases aEnsureDirOk <;> simp [openPlotfile, closePlot]

/-- C3: the file-function attribute always has the form
`%TF.FileFunction,<value>*%` with `<value>` exactly as the claim lists it
(the function is total by construction). -/
theorem fileFunctionAttribute_matches_spec (aBoard : BOARD) (aLayer : Int) :
    getGerberFileFunctionAttribute aBoard aLayer
      = "%TF.FileFunction," ++ fileFunctionSpecValue aBoard aLayer ++ "*%" := by
  by_cases h1 : aLayer = F_Adhes
  · subst h1; rfl
  by_cases h2 : aLayer = B_Adhes
  · subst h2; rfl
  by_cases h3 : aLayer = F_SilkS
  · subst h3; rfl
  by_cases h4 : aLayer = B_SilkS
  · subst h4; rfl
  by_cases h5 : aLayer = F_Mask
  · subst h5; rfl
  by_cases h6 : aLayer = B_Mask
  · subst h6; rfl
  by_cases h7 : aLayer = F_Paste
  · subst h7; rfl
  by_cases h8 : aLayer = B_Paste
  · subst h8; rfl
  by_cases h9 : aLayer = Edge_Cuts
  · subst h9; rfl
  by_cases h10 : aLayer = Dwgs_User
  · subst h10; rfl
  by_cases h11 : aLayer = Cmts_User
  · subst h11; rfl
  by_cases h12 : aLayer = Eco1_User
  · subst h12; rfl
  by_cases h13 : aLayer = Eco2_User
  · subst h13; rfl
  by_cases h14 : aLayer = B_Fab
  · subst h14; rfl
  by_cases h15 : aLayer = F_Fab
  · subst h15; rfl
  by_cases h16 : aLayer = B_Cu
  · subst h16; rfl
  by_cases h17 : aLayer = F_Cu
  · subst h17; rfl
  unfold getGerberFileFunctionAttribute fileFunctionSpecValue
  by_cases hcu : IsCopperLayer aLayer = true
  · simp [h1, h2, h3, h4, h5, h6, h7, h8, h9, h10, h11, h12, h13, h14, h15, h16, h17, hcu]
  · simp [h1, h2, h3, h4, h5, h6, h7, h8, h9, h10, h11, h12, h13, h14, h15, h16, h17, hcu]

/-- C4: the polarity attribute is exactly as the claim states it, and is
empty precisely for the layers that are neither adhesive, silkscreen,
paste, mask, nor copper. -/
theorem filePolarity_matches_spec (aLayer : Int) :
    getGerberFilePolarityAttribute aLayer = filePolaritySpecValue aLayer
      ∧ (getGerberFilePolarityAttribute aLayer = "" ↔ ¬ polarityRelevant aLayer) := by
  have hmain : getGerberFilePolarityAttribute aLayer = filePolaritySpecValue aLayer := by
    unfold getGerberFilePolarityAttribute filePolaritySpecValue
    simp only [F_Adhes, B_Adhes, F_SilkS, B_SilkS, F_Paste, B_Paste, F_Mask, B_Mask,
      IsCopperLayer, F_Cu, B_Cu, Bool.and_eq_true, decide_eq_true_eq]
    split_ifs <;> first | rfl | contradiction | omega
  refine ⟨hmain, ?_⟩
  rw [hmain]
  unfold filePolaritySpecValue polarityRelevant
  simp only [F_Adhes, B_Adhes, F_SilkS, B_SilkS, F_Paste, B_Paste, F_Mask, B_Mask,
    IsCopperLayer, F_Cu, B_Cu, Bool.and_eq_true, decide_eq_true_eq]
  split_ifs with hp hn
  · exact iff_of_false (by decide) fun hc => hc (by omega)
  · exact iff_of_false (by decide) fun hc => hc (by omega)
  · exact iff_of_true rfl (by omega)

/-- Folding single-character replacements over a list of characters none of
which is the underscore replaces exactly the characters of that list. -/
theorem foldl_replChar (bs : List Char) :
    '_' ∉ bs → ∀ l : List Char,
      bs.foldl (fun l bad => replChar bad l) l = l.map fun c => if c ∈ bs then '_' else c := by
  induction bs with
  | nil =>
    intro _hu l
    simp [List.foldl]
  | cons b bs ih =>
    intro hu l
    have hu2 : '_' ∉ bs := fun h => hu (List.mem_cons_of_mem b h)
    have hub : b ≠ '_' := fun h => hu (h ▸ List.mem_cons_self b bs)
    show bs.foldl _ (replChar b l) = _
    rw [ih hu2 (replChar b l)]
    unfold replChar
    rw [List.map_map]
    apply List.map_congr_left
    intro c _
    by_cases hc : c = b
    · subst hc
      simp [List.mem_cons]
    · simp [hc, List.mem_cons]

/-- C6: `BuildPlotFileName` sets directory and extension unconditionally and
appends `-<suffix>` exactly when the trimmed, sanitized suffix is nonempty;
with the spec's two worked examples. -/
theorem buildPlotFileName_spec (aFilename : WxFileName) (aOutputDir aSuffix aExtension : String) :
    buildPlotFileName aFilename aOutputDir aSuffix aExtension
      = { path := aOutputDir,
          name := if sanitizeSuffixSpec aSuffix = "" then aFilename.name
            else aFilename.name ++ "-" ++ sanitizeSuffixSpec aSuffix,
          ext := aExtension }
    ∧ getFullPath (buildPlotFileName ⟨"", "board", ""⟩ "/out" "  Front/Top:1 " "gbr")
      = "/out/board-Front_Top_1.gbr"
    ∧ getFullPath (buildPlotFileName ⟨"", "board", ""⟩ "/out" "" "gbr") = "/out/board.gbr" := by
  have hs : ∀ s : String,
      (⟨(forbiddenFileChars ++ ['%']).foldl (fun l bad => replChar bad l)
        (wxTrimLeft (wxTrimRight s)).data⟩ : String) = sanitizeSuffixSpec s := by
    intro s
    rw [foldl_replChar _ (by decide)]
    rfl
  refine ⟨?_, by decide, by decide⟩
  obtain ⟨p, n, e⟩ := aFilename
  simp only [buildPlotFileName]
  rw [hs aSuffix]
  split_ifs <;> rfl

/-- C8: with an empty title-block revision the `%TF.ProjectId` line carries
the literal `rev?` as its revision field, and the `%TF.SameCoordinates` key
is the literal `Original` unless the auxiliary origin is enabled and
non-zero in both coordinates, in which case it encodes the origin in hex. -/
theorem x2Header_rev_and_origin (aVersion aDateISO aTZ : String) (b : BOARD)
    (hrev : b.revision = "") :
    ((addGerberX2Header aVersion aDateISO aTZ b false)[2]?
        = some ("%TF.ProjectId," ++ wxToAscii (wxReplaceCommaUnderscore b.fileBaseName)
            ++ "," ++ makeProjectGUIDfromString b.fileFullName ++ ",rev?*%"))
      ∧ (¬(b.useAuxOrigin = true ∧ b.auxOriginX ≠ 0 ∧ b.auxOriginY ≠ 0) →
          (addGerberX2Header aVersion aDateISO aTZ b false)[3]?
            = some "%TF.SameCoordinates,Original*%")
      ∧ ((b.useAuxOrigin = true ∧ b.auxOriginX ≠ 0 ∧ b.auxOriginY ≠ 0) →
          (addGerberX2Header aVersion aDateISO aTZ b false)[3]?
            = some ("%TF.SameCoordinates,PX" ++ cfmtHexInt b.auxOriginX ++ "PY"
                ++ cfmtHexInt b.auxOriginY ++ "*%")) := by
  refine ⟨?_, ?_, ?_⟩
  · show some (makeStringCompatX1 (projectIdLine b) false) = _
    rw [makeStringCompatX1_false_id]
    refine congrArg some ?_
    unfold projectIdLine
    have hr : revisionField b = "rev?" := by
      unfold revisionField
      rw [hrev]
      rfl
    rw [hr]
    have hl : (",rev?*%" : String) = ("," ++ "rev?") ++ "*%" := rfl
    have ha : wxToAscii "rev?" = "rev?" := rfl
    rw [hl, ha]
    simp only [String.append_assoc]
  · intro hnot
    show some (makeStringCompatX1
        ("%TF.SameCoordinates," ++ sameCoordinatesKey b ++ "*%") false) = _
    rw [makeStringCompatX1_false_id]
    have hk : sameCoordinatesKey b = "Original" := by
      unfold sameCoordinatesKey
      rw [if_neg hnot]
    rw [hk]
    rfl
  · intro hyes
    show some (makeStringCompatX1
        ("%TF.SameCoordinates," ++ sameCoordinatesKey b ++ "*%") false) = _
    rw [makeStringCompatX1_false_id]
    have hk : sameCoordinatesKey b
        = "PX" ++ cfmtHexInt b.auxOriginX ++ "PY" ++ cfmtHexInt b.auxOriginY := by
      unfold sameCoordinatesKey
      rw [if_pos hyes]
    rw [hk]
    refine congrArg some ?_
    have hl : ("%TF.SameCoordinates,PX" : String) = "%TF.SameCoordinates," ++ "PX" := rfl
    rw [hl]
    simp only [String.append_assoc]

/-- C8 witness: a concrete board with empty revision and disabled auxiliary
origin gets `rev?` and the `Original` key. -/
theorem x2Header_rev_and_origin_witness :
    c2Board.revision = ""
      ∧ ((addGerberX2Header "(5.0.0)" "2018-06-01T12:00:00" "+0300" c2Board false)[2]?
          = some ("%TF.ProjectId," ++ wxToAscii (wxReplaceCommaUnderscore c2Board.fileBaseName)
              ++ "," ++ makeProjectGUIDfromString c2Board.fileFullName ++ ",rev?*%"))
      ∧ ((addGerberX2Header "(5.0.0)" "2018-06-01T12:00:00" "+0300" c2Board false)[3]?
          = some "%TF.SameCoordinates,Original*%") :=
  ⟨rfl,
    (x2Header_rev_and_origin "(5.0.0)" "2018-06-01T12:00:00" "+0300" c2Board rfl).1,
    (x2Header_rev_and_origin "(5.0.0)" "2018-06-01T12:00:00" "+0300" c2Board rfl).2.1
      (by decide)⟩

/-- C2 evidence: with a timezone-offset string longer than three characters
the second header line is the CreationDate line with the colon inserted; at
a three-character offset the `Printf` guarded by the comma operator never
runs, and the second line repeats the generation-software line instead of
being a CreationDate line. -/
theorem creationDate_comma_slip :
    ((addGerberX2Header "(5.0.0)" "2018-06-01T12:00:00" "+0300" c2Board false)[1]?
        = some "%TF.CreationDate,2018-06-01T12:00:00+03:00*%")
      ∧ ((addGerberX2Header "(5.0.0)" "2018-06-01T12:00:00" "UTC" c2Board false)[1]?
        = some "%TF.GenerationSoftware,KiCad,Pcbnew,(5.0.0)*%") := by
  constructor
  · rfl
  · rfl

end KiCadPcbPlot
